import Mathlib

/- Verification of the trivia API service (src/backend/flaskr/__init__.py).

   The relational store is embedded as explicit lists of rows; each Flask
   handler becomes a pure function from the request data and the store to an
   `Except`-style response (the error code standing for the HTTP status of the
   registered error handler).  Python list slicing, the SQLAlchemy query
   helpers (`one_or_none`, `first`, `filter`, `order_by`) and the quiz
   handler's in-place deletion loop are embedded faithfully. -/

namespace Trivia

/-- A row of the `Question` table (id is the primary key). -/
structure Question where
  id : Nat
  question : String
  answer : String
  category : Nat
  difficulty : Nat
deriving DecidableEq

/-- A row of the `Category` table (id is the primary key). -/
structure Category where
  id : Nat
  type : String
deriving DecidableEq

/-- Modelled from the spec: `models.py` (which defines `Question.format`) is
not part of the backend sources here; spec §6 gives the formatted record shape
`\x7bid, question, answer, difficulty, category\x7d`. -/
structure FormattedQuestion where
  id : Nat
  question : String
  answer : String
  category : Nat
  difficulty : Nat
deriving DecidableEq

/-- Modelled from the spec: formatted category record `\x7bid, type\x7d` (§6). -/
structure FormattedCategory where
  id : Nat
  type : String
deriving DecidableEq

/-- Modelled from the spec: `Question.format` returns the plain record of the
row's five attributes. -/
def Question.format (q : Question) : FormattedQuestion :=
  { id := q.id, question := q.question, answer := q.answer,
    category := q.category, difficulty := q.difficulty }

/-- Modelled from the spec: `Category.format` returns the plain record of the
row's two attributes. -/
def Category.format (c : Category) : FormattedCategory :=
  { id := c.id, type := c.type }

/-- The relational store: the two tables. -/
structure Store where
  questions : List Question
  categories : List Category
deriving DecidableEq

/-- The uniform error body produced by the registered error handlers. -/
structure ErrResp where
  success : Bool
  error : Nat
  message : String
deriving DecidableEq

/-- The four registered error handlers (400/404/422/500). -/
def mkErr (code : Nat) : ErrResp :=
  { success := false, error := code,
    message :=
      if code = 400 then "Bad request"
      else if code = 404 then "Resource not found"
      else if code = 422 then "Unprocessable"
      else "Internal server error" }

instance {ε α : Type} [DecidableEq ε] [DecidableEq α] : DecidableEq (Except ε α) :=
  fun a b =>
    match a, b with
    | .ok x, .ok y =>
        if h : x = y then .isTrue (by rw [h]) else .isFalse (by intro he; cases he; exact h rfl)
    | .ok _, .error _ => .isFalse (by intro he; cases he)
    | .error _, .ok _ => .isFalse (by intro he; cases he)
    | .error x, .error y =>
        if h : x = y then .isTrue (by rw [h]) else .isFalse (by intro he; cases he; exact h rfl)

/-- `QUESTIONS_PER_PAGE` from the source. -/
def QUESTIONS_PER_PAGE : Int := 10

/-- Resolution of one Python slice endpoint for a sequence of length `n`:
a negative endpoint counts from the end (clamped below at 0), a nonnegative
endpoint is clamped above at `n`. -/
def sliceIndex (n : Nat) (i : Int) : Nat :=
  if i < 0 then ((n : Int) + i).toNat else min i.toNat n

/-- Python's `l[a:b]` for integer endpoints. -/
def pySlice {α : Type} (l : List α) (a b : Int) : List α :=
  (l.drop (sliceIndex l.length a)).take (sliceIndex l.length b - sliceIndex l.length a)

/-- The `pagination` helper: format the selection, then take the slice
`[start:start+10]` with `start = (page - 1) * 10`. -/
def pagination (page : Int) (selection : List Question) : List FormattedQuestion :=
  pySlice (selection.map Question.format)
    ((page - 1) * QUESTIONS_PER_PAGE) ((page - 1) * QUESTIONS_PER_PAGE + QUESTIONS_PER_PAGE)

/-- `order_by(Question.category, Question.id)`: lexicographic order on
(category, id). -/
def qcatLE (a b : Question) : Prop :=
  a.category < b.category ∨ (a.category = b.category ∧ a.id ≤ b.id)

instance : DecidableRel qcatLE := fun a b => by unfold qcatLE; exact inferInstance

instance : IsTotal Question qcatLE :=
  ⟨by intro a b; unfold qcatLE; omega⟩

instance : IsTrans Question qcatLE :=
  ⟨by intro a b c hab hbc; unfold qcatLE at hab hbc ⊢; omega⟩

/-- `order_by(Question.id)`. -/
def qidLE (a b : Question) : Prop := a.id ≤ b.id

instance : DecidableRel qidLE := fun a b => by unfold qidLE; exact inferInstance

instance : IsTotal Question qidLE :=
  ⟨by intro a b; unfold qidLE; omega⟩

instance : IsTrans Question qidLE :=
  ⟨by intro a b c hab hbc; unfold qidLE at hab hbc ⊢; omega⟩

/-- The selection `Question.query.order_by(Question.category, Question.id).all()`. -/
def orderByCategoryId (l : List Question) : List Question := List.insertionSort qcatLE l

/-- The selection `Question.query.order_by(Question.id).all()`. -/
def orderById (l : List Question) : List Question := List.insertionSort qidLE l

/-- SQLAlchemy's `one_or_none`: no match gives `none`, one match gives the row,
more than one match raises (the `.error ()` case). -/
def oneOrNoneAux {α : Type} : List α → Except Unit (Option α)
  | [] => .ok none
  | [a] => .ok (some a)
  | _ => .error ()

def oneOrNone {α : Type} (p : α → Bool) (l : List α) : Except Unit (Option α) :=
  oneOrNoneAux (l.filter p)

/-- Response of `GET /questions`. -/
structure QuestionsResponse where
  success : Bool
  questions : List FormattedQuestion
  total_questions : Nat
  categories : List (Nat × String)
deriving DecidableEq

/-- Handler of `GET /questions`: fetch all questions ordered by
(category, id), paginate, fetch the category mapping, 404 when the page slice
is empty. -/
def get_questions (page : Int) (store : Store) : Except ErrResp QuestionsResponse :=
  let current := pagination page (orderByCategoryId store.questions)
  let cats := store.categories.map (fun c => (c.id, c.type))
  if current.length = 0 then .error (mkErr 404)
  else .ok { success := true, questions := current,
             total_questions := store.questions.length, categories := cats }

/-- Response of `DELETE /questions/(id)` (the paginated list is returned under
the key `question` in the source). -/
structure DeleteResponse where
  success : Bool
  deleted : Nat
  question : List FormattedQuestion
  total_questions : Nat
deriving DecidableEq

/-- `question.delete()`: remove the row found by primary key. -/
def removeQuestion (store : Store) (qid : Nat) : List Question :=
  store.questions.eraseP (fun x => x.id == qid)

/-- Handler of `DELETE /questions/(id)`.  The whole body runs inside
`try: ... except: abort(422)`; in Python a bare `except:` also catches the
`NotFound` exception raised by `abort(404)`, so the missing-id path actually
produces a 422 response, and so does the multiple-rows exception of
`one_or_none`. -/
def delete_question (store : Store) (qid : Nat) (page : Int) :
    Store × Except ErrResp DeleteResponse :=
  match oneOrNone (fun q => q.id == qid) store.questions with
  | .error () => (store, .error (mkErr 422))
  | .ok none => (store, .error (mkErr 422))
  | .ok (some q) =>
      ({ store with questions := removeQuestion store qid },
       .ok { success := true, deleted := q.id,
             question := pagination page (orderById (removeQuestion store qid)),
             total_questions := (removeQuestion store qid).length })

/-- The lowercased character list of a string, for `ILIKE` matching. -/
def ilikePat (s : String) : List Char := s.toList.map Char.toLower

/-- `Question.question.ilike('%term%')`: case-insensitive substring match. -/
def ilikeMatch (term : String) (q : Question) : Bool :=
  decide (ilikePat term <:+: ilikePat q.question)

/-- Response of `POST /search`. -/
structure SearchResponse where
  success : Bool
  questions : List FormattedQuestion
  total_questions : Nat
  current_category : List FormattedCategory
deriving DecidableEq

/-- Handler of `POST /search`: all questions whose text contains the term
case-insensitively; 404 when none match; the response carries the full
unpaginated formatted match list and its length, plus the categories collected
from the paginated slice. -/
def search_questions (term : String) (page : Int) (store : Store) :
    Except ErrResp SearchResponse :=
  let result := store.questions.filter (ilikeMatch term)
  if result.length = 0 then .error (mkErr 404)
  else
    .ok { success := true,
          questions := result.map Question.format,
          total_questions := (result.map Question.format).length,
          current_category :=
            (pagination page result).flatMap
              (fun fq => (store.categories.filter (fun c => c.id == fq.category)).map
                Category.format) }

/-- Response of `GET /categories/(id)/questions` (no `success` key in the
source). -/
structure CatQuestionsResponse where
  questions : List FormattedQuestion
  total_questions : Nat
  current_category : String
deriving DecidableEq

/-- Handler of `GET /categories/(id)/questions`: paginate the questions of the
category, report the total size of the whole table, 404 when the category id
does not exist (a duplicated category id would make `one_or_none` raise,
which surfaces as a 500). -/
def get_questions_by_category (cid : Nat) (page : Int) (store : Store) :
    Except ErrResp CatQuestionsResponse :=
  let current := pagination page (store.questions.filter (fun q => q.category == cid))
  match oneOrNone (fun c => c.id == cid) store.categories with
  | .error () => .error (mkErr 500)
  | .ok none => .error (mkErr 404)
  | .ok (some c) =>
      .ok { questions := current, total_questions := store.questions.length,
            current_category := c.type }

/-- The JSON body of `POST /quizzes`: `none` stands for a missing key (the
inner option is the `id` key inside `quiz_category`). -/
structure QuizBody where
  previous_questions : Option (List Nat)
  quiz_category : Option (Option Nat)
deriving DecidableEq

/-- Response of `POST /quizzes`; `none` is the empty-string question value. -/
structure QuizResponse where
  success : Bool
  question : Option FormattedQuestion
deriving DecidableEq

/-- `Category.query.filter_by(id=cid).first()` followed by the choice of the
candidate pool: the category's questions when the id resolves, every question
otherwise. -/
def quizPool (store : Store) (cid : Nat) : List Question :=
  match store.categories.find? (fun c => c.id == cid) with
  | some c => store.questions.filter (fun q => q.category == c.id)
  | none => store.questions

/-- The quiz handler's in-place deletion loop, exactly as in the source:
walk the list by index `i`; when the id of the element at `i` is among the
previous questions, delete it and decrement `i`; then increment `i`. -/
def quizFilterLoop (prev : List Nat) (qs : List Question) (i : Nat) : List Question :=
  if h : i < qs.length then
    if qs[i].id ∈ prev then
      quizFilterLoop prev (qs.eraseIdx i) i
    else
      quizFilterLoop prev qs (i + 1)
  else qs
termination_by qs.length - i
decreasing_by
  · rw [List.length_eraseIdx_of_lt h]; omega
  · omega

/-- Handler of `POST /quizzes`.  `r` is the value drawn by
`random.randint(0, len(questions) - 1)`; the outer `Option` of the second
component is `none` only when that index is out of bounds (which the source
guard makes unreachable).  The store is returned unchanged: the handler never
writes to it. -/
def quiz (store : Store) (body : QuizBody) (r : Nat) :
    Store × Option (Except ErrResp QuizResponse) :=
  match body.previous_questions, body.quiz_category with
  | some prev, some (some cid) =>
      let remaining := quizFilterLoop prev (quizPool store cid) 0
      if remaining.length = 0 then
        (store, some (.ok { success := true, question := none }))
      else
        (store, (remaining[r]?).map (fun q => .ok { success := true, question := some q.format }))
  | _, _ => (store, some (.error (mkErr 400)))

/-- A small concrete store used by the witnesses: two categories with
questions, one category without. -/
def exampleStore : Store :=
  { questions :=
      [ { id := 1, question := "Aaa", answer := "a", category := 1, difficulty := 1 },
        { id := 2, question := "Bbb", answer := "b", category := 1, difficulty := 2 },
        { id := 3, question := "Ccc", answer := "c", category := 2, difficulty := 1 } ],
    categories :=
      [ { id := 1, type := "Science" },
        { id := 2, type := "Art" },
        { id := 3, type := "Empty" } ] }

/-- Eleven questions, so that the slice of page -1 (`[-20:-10]` in Python)
is nonempty. -/
def elevenQuestions : List Question :=
  (List.range 11).map
    (fun i => { id := i, question := "q", answer := "a", category := 1, difficulty := 1 })

/- ### Slice and pagination lemmas -/

lemma sliceIndex_nonneg (n : Nat) (a : Nat) : sliceIndex n (a : Int) = min a n := by
  unfold sliceIndex; split <;> omega

lemma pySlice_nonneg {α : Type} (l : List α) (a b : Nat) :
    pySlice l (a : Int) (b : Int) = (l.drop a).take (b - a) := by
  unfold pySlice
  rw [sliceIndex_nonneg, sliceIndex_nonneg]
  rcases le_or_lt l.length a with h | h
  · rw [Nat.min_eq_right h, List.drop_eq_nil_of_le (Nat.le_refl _),
      List.drop_eq_nil_of_le h, List.take_nil, List.take_nil]
  · rw [Nat.min_eq_left (Nat.le_of_lt h)]
    rcases le_or_lt b l.length with hb | hb
    · rw [Nat.min_eq_left hb]
    · rw [Nat.min_eq_right (Nat.le_of_lt hb),
        List.take_of_length_le (by simp only [List.length_drop]; omega),
        List.take_of_length_le (by simp only [List.length_drop]; omega)]

/-- C2 (amended): for every requested page number p ≥ 1 the pagination helper
returns exactly the slice of the formatted records from index (p-1)*10
(inclusive) to (p-1)*10+10 (exclusive); hence at most 10 records, page n
starts at the ((n-1)*10+1)-th record, and an out-of-range page p ≥ 1 yields
the empty slice.  (For p ≤ 0 the helper follows Python negative-slice
semantics and can return a nonempty slice.) -/
theorem pagination_pos_page_spec (page : Int) (sel : List Question) (h : 1 ≤ page) :
    pagination page sel
        = ((sel.map Question.format).drop ((page.toNat - 1) * 10)).take 10
      ∧ (pagination page sel).length ≤ 10
      ∧ (pagination page sel).head? = (sel.map Question.format)[(page.toNat - 1) * 10]?
      ∧ (sel.length ≤ (page.toNat - 1) * 10 → pagination page sel = []) := by
  have key : pagination page sel
      = ((sel.map Question.format).drop ((page.toNat - 1) * 10)).take 10 := by
    unfold pagination
    have e1 : (page - 1) * QUESTIONS_PER_PAGE = (((page.toNat - 1) * 10 : Nat) : Int) := by
      unfold QUESTIONS_PER_PAGE; omega
    have e2 : (page - 1) * QUESTIONS_PER_PAGE + QUESTIONS_PER_PAGE
        = ((((page.toNat - 1) * 10 + 10) : Nat) : Int) := by
      unfold QUESTIONS_PER_PAGE; omega
    rw [e2, e1, pySlice_nonneg]
    congr 1
    omega
  refine ⟨key, ?_, ?_, ?_⟩
  · rw [key]; exact List.length_take_le _ _
  · rw [key, List.head?_take, if_neg (by omega), List.head?_drop]
  · intro hle
    rw [key, List.drop_eq_nil_of_le (by simpa using hle), List.take_nil]

/-- C2 counterexample: page -1 on an 11-record sequence is out of range
(valid pages are 1 and 2), yet the helper returns a nonempty slice — Python
resolves the slice `[-20:-10]` to `[0:1]` — contradicting the claim that
every out-of-range page yields an empty slice. -/
theorem pagination_claim_counterexample :
    pagination (-1) elevenQuestions ≠ ([] : List FormattedQuestion)
      ∧ pagination (-1) elevenQuestions
          = [Question.format
              { id := 0, question := "q", answer := "a", category := 1, difficulty := 1 }]
      ∧ elevenQuestions.length = 11 := by
  refine ⟨by decide, by decide, by decide⟩

/-- Witness for the amended C2 theorem at page 3 over the three-question
example store. -/
theorem pagination_pos_page_spec_witness :
    (1 : Int) ≤ 3
      ∧ pagination 3 exampleStore.questions
          = ((exampleStore.questions.map Question.format).drop 20).take 10
      ∧ (pagination 3 exampleStore.questions).length ≤ 10
      ∧ (pagination 3 exampleStore.questions).head?
          = (exampleStore.questions.map Question.format)[20]?
      ∧ pagination 3 exampleStore.questions = [] :=
  ⟨by decide,
   (pagination_pos_page_spec 3 exampleStore.questions (by decide)).1,
   (pagination_pos_page_spec 3 exampleStore.questions (by decide)).2.1,
   (pagination_pos_page_spec 3 exampleStore.questions (by decide)).2.2.1,
   (pagination_pos_page_spec 3 exampleStore.questions (by decide)).2.2.2 (by decide)⟩

/- ### The quiz deletion loop -/

lemma quizFilterLoop_take_filter (prev : List Nat) (qs : List Question) (i : Nat) :
    quizFilterLoop prev qs i
      = qs.take i ++ (qs.drop i).filter (fun q => decide (q.id ∉ prev)) := by
  have H : ∀ (fuel : Nat) (qs : List Question) (i : Nat), qs.length - i ≤ fuel →
      quizFilterLoop prev qs i
        = qs.take i ++ (qs.drop i).filter (fun q => decide (q.id ∉ prev)) := by
    intro fuel
    induction fuel with
    | zero =>
      intro qs i hle
      have hge : qs.length ≤ i := by omega
      unfold quizFilterLoop
      rw [dif_neg (by omega), List.take_of_length_le hge, List.drop_eq_nil_of_le hge]
      simp
    | succ n ih =>
      intro qs i hle
      unfold quizFilterLoop
      by_cases h : i < qs.length
      · rw [dif_pos h]
        by_cases hmem : qs[i].id ∈ prev
        · rw [if_pos hmem,
            ih (qs.eraseIdx i) i (by rw [List.length_eraseIdx_of_lt h]; omega),
            List.eraseIdx_eq_take_drop_succ,
            List.take_left' (by rw [List.length_take]; omega),
            List.drop_left' (by rw [List.length_take]; omega),
            List.drop_eq_getElem_cons h,
            List.filter_cons_of_neg (by simpa using hmem)]
        · rw [if_neg hmem, ih qs (i + 1) (by omega),
            List.drop_eq_getElem_cons h,
            List.filter_cons_of_pos (by simpa using hmem),
            List.take_succ, List.getElem?_eq_getElem h, List.append_assoc]
          rfl
      · rw [dif_neg h, List.take_of_length_le (by omega),
          List.drop_eq_nil_of_le (by omega)]
        simp
  exact H (qs.length - i) qs i (Nat.le_refl _)

lemma quizFilterLoop_zero (prev : List Nat) (qs : List Question) :
    quizFilterLoop prev qs 0 = qs.filter (fun q => decide (q.id ∉ prev)) := by
  rw [quizFilterLoop_take_filter]; simp

/-- Evaluation shape of the quiz handler on a well-formed body. -/
lemma quiz_valid_eval (store : Store) (prev : List Nat) (cid : Nat) (r : Nat) :
    quiz store { previous_questions := some prev, quiz_category := some (some cid) } r
      = (if (quizFilterLoop prev (quizPool store cid) 0).length = 0
         then (store, some (.ok { success := true, question := none }))
         else (store, ((quizFilterLoop prev (quizPool store cid) 0)[r]?).map
                (fun q => .ok { success := true, question := some q.format }))) := rfl

/-- C9: the quiz handler's in-place deletion loop (delete at the current
index and step back when the id is among the previous questions) computes,
for every input list and every previous-questions sequence, exactly the same
list in the same order as a straightforward filter keeping every question
whose id is not in previous_questions. -/
theorem quiz_loop_eq_filter (prev : List Nat) (qs : List Question) :
    quizFilterLoop prev qs 0 = qs.filter (fun q => decide (q.id ∉ prev)) :=
  quizFilterLoop_zero prev qs

/-- C1: on a quiz request with both fields present the handler never errors:
the question value is empty exactly when every candidate-pool question id is
among the previous questions, and an answered question is drawn from the
remaining pool, so its id is never among the previous questions. -/
theorem quiz_valid_spec (store : Store) (prev : List Nat) (cid : Nat) (r : Nat)
    (hr : r < (quizFilterLoop prev (quizPool store cid) 0).length
          ∨ quizFilterLoop prev (quizPool store cid) 0 = []) :
    ∃ resp : QuizResponse,
      (quiz store { previous_questions := some prev, quiz_category := some (some cid) } r).2
          = some (.ok resp)
        ∧ resp.success = true
        ∧ (resp.question = none ↔ ∀ q ∈ quizPool store cid, q.id ∈ prev)
        ∧ (∀ fq, resp.question = some fq →
            fq.id ∉ prev ∧ ∃ q ∈ quizPool store cid, q.id ∉ prev ∧ q.format = fq) := by
  have hfil := quizFilterLoop_zero prev (quizPool store cid)
  by_cases hemp : quizFilterLoop prev (quizPool store cid) 0 = []
  · refine ⟨{ success := true, question := none }, ?_, rfl, ?_, ?_⟩
    · rw [quiz_valid_eval, if_pos (by rw [hemp]; rfl)]
    · constructor
      · intro _ q hq
        by_contra hnot
        have hqf : q ∈ quizFilterLoop prev (quizPool store cid) 0 := by
          rw [hfil]
          exact List.mem_filter.mpr ⟨hq, by simpa using hnot⟩
        rw [hemp] at hqf
        simp at hqf
      · intro _; rfl
    · intro fq hfq
      exact absurd hfq (by simp)
  · have hr' : r < (quizFilterLoop prev (quizPool store cid) 0).length :=
      hr.resolve_right hemp
    have hlen : ¬(quizFilterLoop prev (quizPool store cid) 0).length = 0 := by
      simpa [List.length_eq_zero] using hemp
    obtain ⟨q, hq⟩ : ∃ x, (quizFilterLoop prev (quizPool store cid) 0)[r]? = some x := by
      rw [List.getElem?_eq_getElem hr']
      exact ⟨_, rfl⟩
    have hqmem : q ∈ quizFilterLoop prev (quizPool store cid) 0 := List.getElem?_mem hq
    rw [hfil] at hqmem
    have hprops := List.mem_filter.mp hqmem
    have hid : q.id ∉ prev := by simpa using hprops.2
    refine ⟨{ success := true, question := some q.format }, ?_, rfl, ?_, ?_⟩
    · rw [quiz_valid_eval, if_neg hlen, hq]
      rfl
    · apply iff_of_false
      · simp
      · intro hall
        exact hid (hall _ hprops.1)
    · intro fq hfq
      have heq : q.format = fq := by simpa using hfq
      constructor
      · rw [← heq]
        simpa [Question.format] using hid
      · exact ⟨q, hprops.1, hid, heq⟩

/-- Witness for C1: category 1 of the example store holds questions 1 and 2;
with question 1 already seen, the handler must serve question 2. -/
theorem quiz_valid_spec_witness :
    (0 < (quizFilterLoop [1] (quizPool exampleStore 1) 0).length
        ∨ quizFilterLoop [1] (quizPool exampleStore 1) 0 = [])
      ∧ ∃ resp : QuizResponse,
          (quiz exampleStore { previous_questions := some [1], quiz_category := some (some 1) } 0).2
              = some (.ok resp)
            ∧ resp.success = true
            ∧ (resp.question = none ↔ ∀ q ∈ quizPool exampleStore 1, q.id ∈ [1])
            ∧ (∀ fq, resp.question = some fq →
                fq.id ∉ [1] ∧ ∃ q ∈ quizPool exampleStore 1, q.id ∉ [1] ∧ q.format = fq) :=
  ⟨Or.inl (by rw [quizFilterLoop_zero]; decide),
   quiz_valid_spec exampleStore [1] 1 0 (Or.inl (by rw [quizFilterLoop_zero]; decide))⟩

/-- C10: under the guard that the filtered pool is nonempty, any index the
random draw can produce (at most length - 1) is in bounds, so the list access
succeeds and the handler returns a question. -/
theorem quiz_index_in_bounds (store : Store) (prev : List Nat) (cid : Nat) (r : Nat)
    (h1 : quizFilterLoop prev (quizPool store cid) 0 ≠ [])
    (h2 : r ≤ (quizFilterLoop prev (quizPool store cid) 0).length - 1) :
    ((quizFilterLoop prev (quizPool store cid) 0)[r]?).isSome = true
      ∧ ∃ fq, (quiz store { previous_questions := some prev, quiz_category := some (some cid) } r).2
          = some (.ok { success := true, question := some fq }) := by
  have hlen : ¬(quizFilterLoop prev (quizPool store cid) 0).length = 0 := by
    simpa [List.length_eq_zero] using h1
  have hr : r < (quizFilterLoop prev (quizPool store cid) 0).length := by omega
  constructor
  · rw [List.getElem?_eq_getElem hr]
    rfl
  · refine ⟨((quizFilterLoop prev (quizPool store cid) 0).get ⟨r, hr⟩).format, ?_⟩
    rw [quiz_valid_eval, if_neg hlen, List.getElem?_eq_getElem hr]
    rfl

/-- Witness for C10: no category 5 exists, so the pool is all three example
questions; with nothing previously seen, index 2 is the largest draw and is
in bounds. -/
theorem quiz_index_in_bounds_witness :
    quizFilterLoop [] (quizPool exampleStore 5) 0 ≠ []
      ∧ 2 ≤ (quizFilterLoop [] (quizPool exampleStore 5) 0).length - 1
      ∧ (((quizFilterLoop [] (quizPool exampleStore 5) 0)[2]?).isSome = true
          ∧ ∃ fq, (quiz exampleStore
                { previous_questions := some [], quiz_category := some (some 5) } 2).2
              = some (.ok { success := true, question := some fq })) :=
  ⟨by rw [quizFilterLoop_zero]; decide,
   by rw [quizFilterLoop_zero]; decide,
   quiz_index_in_bounds exampleStore [] 5 2
     (by rw [quizFilterLoop_zero]; decide)
     (by rw [quizFilterLoop_zero]; decide)⟩

/-- C8: a quiz request body missing previous_questions or quiz_category is
answered with the 400 bad-request error, and the store is unchanged. -/
theorem quiz_missing_field_400 (store : Store) (body : QuizBody) (r : Nat)
    (h : body.previous_questions = none ∨ body.quiz_category = none) :
    quiz store body r = (store, some (.error (mkErr 400))) := by
  obtain ⟨pq, qc⟩ := body
  cases pq with
  | none =>
    cases qc with
    | none => rfl
    | some c =>
      cases c with
      | none => rfl
      | some cid => rfl
  | some prev =>
    cases qc with
    | none => rfl
    | some c =>
      rcases h with h | h <;> exact Option.noConfusion h

/-- Witness for C8: a body with quiz_category but no previous_questions. -/
theorem quiz_missing_field_400_witness :
    ((QuizBody.mk none (some (some 1))).previous_questions = none
        ∨ (QuizBody.mk none (some (some 1))).quiz_category = none)
      ∧ quiz exampleStore (QuizBody.mk none (some (some 1))) 0
          = (exampleStore, some (.error (mkErr 400))) :=
  ⟨Or.inl rfl, quiz_missing_field_400 exampleStore _ 0 (Or.inl rfl)⟩

/- ### Primary-key filters under unique ids -/

lemma filter_key_len_le_one {α : Type} (f : α → Nat) (k : Nat) (l : List α)
    (h : (l.map f).Nodup) : (l.filter (fun x => f x == k)).length ≤ 1 := by
  induction l with
  | nil => simp
  | cons a t ih =>
    simp only [List.map_cons, List.nodup_cons] at h
    by_cases ha : f a = k
    · have ht : t.filter (fun x => f x == k) = [] := by
        rw [List.filter_eq_nil_iff]
        intro x hx hbeq
        simp only [beq_iff_eq] at hbeq
        exact h.1 (by rw [ha, ← hbeq]; exact List.mem_map_of_mem f hx)
      rw [List.filter_cons_of_pos (by simpa using ha), ht]
      simp
    · rw [List.filter_cons_of_neg (by simpa using ha)]
      exact ih h.2

lemma filter_key_singleton {α : Type} (f : α → Nat) (k : Nat) (l : List α)
    (hN : (l.map f).Nodup) (a : α) (ha : a ∈ l) (hk : f a = k) :
    l.filter (fun x => f x == k) = [a] := by
  have hle := filter_key_len_le_one f k l hN
  have hmem : a ∈ l.filter (fun x => f x == k) :=
    List.mem_filter.mpr ⟨ha, by simpa using hk⟩
  cases hfe : l.filter (fun x => f x == k) with
  | nil =>
    rw [hfe] at hmem
    simp at hmem
  | cons b tail =>
    cases tail with
    | nil =>
      rw [hfe] at hmem
      simp only [List.mem_singleton] at hmem
      rw [hmem]
    | cons c t2 =>
      rw [hfe] at hle
      simp at hle

/- ### DELETE /questions/(id) -/

/-- C3: deleting an id that is not in the store.  The source's `abort(404)`
sits inside `try: ... except: abort(422)`, and Python's bare `except:` also
catches the `NotFound` raised by `abort(404)`, so the handler answers 422
Unprocessable — not the 404 the spec promises for a missing question. -/
theorem delete_missing_id_gives_422 :
    delete_question exampleStore 100 1 = (exampleStore, .error (mkErr 422))
      ∧ (mkErr 422).success = false
      ∧ (mkErr 422).error = 422
      ∧ delete_question exampleStore 100 1 ≠ (exampleStore, .error (mkErr 404)) :=
  ⟨by decide, rfl, rfl, by decide⟩

lemma delete_question_eval (store : Store) (qid : Nat) (page : Int) (q : Question)
    (hfil : store.questions.filter (fun x => x.id == qid) = [q]) :
    delete_question store qid page
      = ({ store with questions := removeQuestion store qid },
         .ok { success := true, deleted := q.id,
               question := pagination page (orderById (removeQuestion store qid)),
               total_questions := (removeQuestion store qid).length }) := by
  unfold delete_question oneOrNone
  rw [hfil]
  rfl

/-- C7: deleting an id that is present (ids unique) removes exactly that
question: the new id list no longer contains it, the count drops by one, and
the response carries the deleted id with the remaining questions re-fetched
ordered by id and paginated by the request's page parameter. -/
theorem delete_question_spec (store : Store) (qid : Nat) (page : Int)
    (hN : (store.questions.map Question.id).Nodup)
    (hmem : qid ∈ store.questions.map Question.id) :
    delete_question store qid page
        = ({ store with questions := removeQuestion store qid },
           .ok { success := true, deleted := qid,
                 question := pagination page (orderById (removeQuestion store qid)),
                 total_questions := (removeQuestion store qid).length })
      ∧ qid ∉ (removeQuestion store qid).map Question.id
      ∧ (removeQuestion store qid).length + 1 = store.questions.length
      ∧ List.Sorted qidLE (orderById (removeQuestion store qid)) := by
  obtain ⟨q, hq, hqid⟩ : ∃ q ∈ store.questions, q.id = qid := by
    simpa using hmem
  have hfil : store.questions.filter (fun x => x.id == qid) = [q] :=
    filter_key_singleton Question.id qid store.questions hN q hq hqid
  have hmapid : (removeQuestion store qid).map Question.id
      = (store.questions.map Question.id).erase qid := by
    unfold removeQuestion
    rw [List.erase_eq_eraseP', List.eraseP_map]
    rfl
  have hne : store.questions.length ≠ 0 := by
    intro h0
    rw [List.length_eq_zero] at h0
    rw [h0] at hmem
    simp at hmem
  refine ⟨?_, ?_, ?_, List.sorted_insertionSort qidLE _⟩
  · rw [delete_question_eval store qid page q hfil, hqid]
  · rw [hmapid]
    exact List.Nodup.not_mem_erase hN
  · have h1 : (removeQuestion store qid).length
        = ((removeQuestion store qid).map Question.id).length := by
      rw [List.length_map]
    rw [h1, hmapid, List.length_erase_of_mem hmem, List.length_map]
    omega

/-- Witness for C7: deleting question 2 from the example store. -/
theorem delete_question_spec_witness :
    (exampleStore.questions.map Question.id).Nodup
      ∧ 2 ∈ exampleStore.questions.map Question.id
      ∧ (delete_question exampleStore 2 1
            = ({ exampleStore with questions := removeQuestion exampleStore 2 },
               .ok { success := true, deleted := 2,
                     question := pagination 1 (orderById (removeQuestion exampleStore 2)),
                     total_questions := (removeQuestion exampleStore 2).length })
          ∧ 2 ∉ (removeQuestion exampleStore 2).map Question.id
          ∧ (removeQuestion exampleStore 2).length + 1 = exampleStore.questions.length
          ∧ List.Sorted qidLE (orderById (removeQuestion exampleStore 2))) :=
  ⟨by decide, by decide, delete_question_spec exampleStore 2 1 (by decide) (by decide)⟩

/- ### GET /categories/(id)/questions -/

lemma by_category_eval_none (cid : Nat) (page : Int) (store : Store)
    (hfe : store.categories.filter (fun c => c.id == cid) = []) :
    get_questions_by_category cid page store = .error (mkErr 404) := by
  unfold get_questions_by_category oneOrNone
  rw [hfe]
  rfl

lemma by_category_eval_one (cid : Nat) (page : Int) (store : Store) (c : Category)
    (hfe : store.categories.filter (fun x => x.id == cid) = [c]) :
    get_questions_by_category cid page store
      = .ok { questions := pagination page (store.questions.filter (fun q => q.category == cid)),
              total_questions := store.questions.length,
              current_category := c.type } := by
  unfold get_questions_by_category oneOrNone
  rw [hfe]
  rfl

/-- C6: with unique category ids, the by-category endpoint answers 404
exactly when the category id does not exist; for an existing category it
returns the paginated questions of that category (an empty list when there
are none), the total count of ALL questions, and the category's type. -/
theorem get_questions_by_category_spec (cid : Nat) (page : Int) (store : Store)
    (hN : (store.categories.map Category.id).Nodup) :
    (get_questions_by_category cid page store = .error (mkErr 404)
        ↔ ∀ c ∈ store.categories, c.id ≠ cid)
      ∧ (∀ resp, get_questions_by_category cid page store = .ok resp →
          resp.questions = pagination page (store.questions.filter (fun q => q.category == cid))
            ∧ resp.total_questions = store.questions.length
            ∧ ∃ c ∈ store.categories, c.id = cid ∧ resp.current_category = c.type) := by
  cases hfe : store.categories.filter (fun x => x.id == cid) with
  | nil =>
    have h404 := by_category_eval_none cid page store hfe
    constructor
    · constructor
      · intro _ c hc hceq
        have hnp := List.filter_eq_nil_iff.mp hfe c hc
        simp [hceq] at hnp
      · intro _
        exact h404
    · intro resp hresp
      rw [h404] at hresp
      exact Except.noConfusion hresp
  | cons c tail =>
    cases tail with
    | cons d t2 =>
      exfalso
      have hle := filter_key_len_le_one Category.id cid store.categories hN
      rw [hfe] at hle
      simp at hle
    | nil =>
      have hcfil : c ∈ store.categories.filter (fun x => x.id == cid) := by
        rw [hfe]
        exact List.mem_cons_self c []
      have hcmem : c ∈ store.categories := (List.mem_filter.mp hcfil).1
      have hcid : c.id = cid := by
        have := (List.mem_filter.mp hcfil).2
        simpa using this
      have hok := by_category_eval_one cid page store c hfe
      constructor
      · rw [hok]
        apply iff_of_false
        · exact fun hh => Except.noConfusion hh
        · intro hall
          exact hall c hcmem hcid
      · intro resp hresp
        rw [hok] at hresp
        injection hresp with h
        rw [← h]
        exact ⟨rfl, rfl, c, hcmem, hcid, rfl⟩

/-- The response of the by-category endpoint for the empty category 3 of the
example store. -/
def exampleCatResp : CatQuestionsResponse :=
  { questions := [], total_questions := 3, current_category := "Empty" }

/-- Witness for C6: category 3 exists but has no questions — 200 with an
empty list, total over the whole table, and the category's type. -/
theorem get_questions_by_category_spec_witness :
    (exampleStore.categories.map Category.id).Nodup
      ∧ get_questions_by_category 3 1 exampleStore = .ok exampleCatResp
      ∧ (exampleCatResp.questions
            = pagination 1 (exampleStore.questions.filter (fun q => q.category == 3))
          ∧ exampleCatResp.total_questions = exampleStore.questions.length
          ∧ ∃ c ∈ exampleStore.categories, c.id = 3 ∧ exampleCatResp.current_category = c.type) :=
  ⟨by decide, by decide,
   (get_questions_by_category_spec 3 1 exampleStore (by decide)).2 exampleCatResp (by decide)⟩

/- ### GET /questions -/

lemma get_questions_eval (page : Int) (store : Store) :
    get_questions page store
      = if (pagination page (orderByCategoryId store.questions)).length = 0
        then .error (mkErr 404)
        else .ok { success := true,
                   questions := pagination page (orderByCategoryId store.questions),
                   total_questions := store.questions.length,
                   categories := store.categories.map (fun c => (c.id, c.type)) } := rfl

/-- C4: the list endpoint paginates the selection ordered by (category, id)
ascending (a sorted permutation of the table), answers 404 exactly when the
page slice is empty, and on success reports the page's formatted questions,
the size of the whole table, and the full category mapping. -/
theorem get_questions_spec (page : Int) (store : Store) :
    (get_questions page store = .error (mkErr 404)
        ↔ pagination page (orderByCategoryId store.questions) = [])
      ∧ List.Sorted qcatLE (orderByCategoryId store.questions)
      ∧ List.Perm (orderByCategoryId store.questions) store.questions
      ∧ (∀ resp, get_questions page store = .ok resp →
          resp.success = true
            ∧ resp.questions = pagination page (orderByCategoryId store.questions)
            ∧ resp.total_questions = store.questions.length
            ∧ resp.categories = store.categories.map (fun c => (c.id, c.type))) := by
  refine ⟨?_, List.sorted_insertionSort qcatLE store.questions,
    List.perm_insertionSort qcatLE store.questions, ?_⟩
  · rw [get_questions_eval]
    by_cases hc : pagination page (orderByCategoryId store.questions) = []
    · rw [if_pos (by rw [hc]; rfl)]
      exact iff_of_true rfl hc
    · rw [if_neg (by simpa [List.length_eq_zero] using hc)]
      exact iff_of_false (fun hh => Except.noConfusion hh) hc
  · intro resp hresp
    rw [get_questions_eval] at hresp
    by_cases hc : pagination page (orderByCategoryId store.questions) = []
    · rw [if_pos (by rw [hc]; rfl)] at hresp
      exact Except.noConfusion hresp
    · rw [if_neg (by simpa [List.length_eq_zero] using hc)] at hresp
      injection hresp with h
      rw [← h]
      exact ⟨rfl, rfl, rfl, rfl⟩

/-- The successful page-1 response of the list endpoint on the example
store. -/
def exampleQR : QuestionsResponse :=
  { success := true,
    questions := exampleStore.questions.map Question.format,
    total_questions := 3,
    categories := [(1, "Science"), (2, "Art"), (3, "Empty")] }

/-- Witness for C4: page 1 of the example store succeeds with all three
questions, the table total and the full category mapping. -/
theorem get_questions_spec_witness :
    get_questions 1 exampleStore = .ok exampleQR
      ∧ (exampleQR.success = true
          ∧ exampleQR.questions = pagination 1 (orderByCategoryId exampleStore.questions)
          ∧ exampleQR.total_questions = exampleStore.questions.length
          ∧ exampleQR.categories = exampleStore.categories.map (fun c => (c.id, c.type))) :=
  ⟨by decide, (get_questions_spec 1 exampleStore).2.2.2 exampleQR (by decide)⟩

/- ### POST /search -/

lemma search_eval (term : String) (page : Int) (store : Store) :
    search_questions term page store
      = if (store.questions.filter (ilikeMatch term)).length = 0
        then .error (mkErr 404)
        else .ok { success := true,
                   questions := (store.questions.filter (ilikeMatch term)).map Question.format,
                   total_questions :=
                     ((store.questions.filter (ilikeMatch term)).map Question.format).length,
                   current_category :=
                     (pagination page (store.questions.filter (ilikeMatch term))).flatMap
                       (fun fq => (store.categories.filter (fun c => c.id == fq.category)).map
                         Category.format) } := rfl

/-- C5: the search endpoint matches exactly the questions whose lowered text
contains the lowered term as an infix, answers 404 exactly when no question
matches, and on success carries the full unpaginated formatted match list
with total_questions equal to the match count. -/
theorem search_questions_spec (term : String) (page : Int) (store : Store) :
    (search_questions term page store = .error (mkErr 404)
        ↔ store.questions.filter (ilikeMatch term) = [])
      ∧ (∀ q, q ∈ store.questions.filter (ilikeMatch term)
          ↔ q ∈ store.questions ∧ ilikePat term <:+: ilikePat q.question)
      ∧ (∀ resp, search_questions term page store = .ok resp →
          resp.questions = (store.questions.filter (ilikeMatch term)).map Question.format
            ∧ resp.total_questions = (store.questions.filter (ilikeMatch term)).length
            ∧ resp.questions ≠ []) := by
  refine ⟨?_, ?_, ?_⟩
  · rw [search_eval]
    by_cases hc : store.questions.filter (ilikeMatch term) = []
    · rw [if_pos (by rw [hc]; rfl)]
      exact iff_of_true rfl hc
    · rw [if_neg (by simpa [List.length_eq_zero] using hc)]
      exact iff_of_false (fun hh => Except.noConfusion hh) hc
  · intro q
    rw [List.mem_filter]
    unfold ilikeMatch
    simp only [decide_eq_true_eq]
  · intro resp hresp
    rw [search_eval] at hresp
    by_cases hc : store.questions.filter (ilikeMatch term) = []
    · rw [if_pos (by rw [hc]; rfl)] at hresp
      exact Except.noConfusion hresp
    · rw [if_neg (by simpa [List.length_eq_zero] using hc)] at hresp
      injection hresp with h
      rw [← h]
      exact ⟨rfl, by rw [List.length_map], by simpa using hc⟩

/-- The response of searching "bb" on the example store: only "Bbb"
matches. -/
def exampleSearchResp : SearchResponse :=
  { success := true,
    questions := [{ id := 2, question := "Bbb", answer := "b", category := 1, difficulty := 2 }],
    total_questions := 1,
    current_category := [{ id := 1, type := "Science" }] }

/-- Witness for C5: the term "bb" matches the single question "Bbb"
case-insensitively. -/
theorem search_questions_spec_witness :
    search_questions "bb" 1 exampleStore = .ok exampleSearchResp
      ∧ (exampleSearchResp.questions
            = (exampleStore.questions.filter (ilikeMatch "bb")).map Question.format
          ∧ exampleSearchResp.total_questions
              = (exampleStore.questions.filter (ilikeMatch "bb")).length
          ∧ exampleSearchResp.questions ≠ []) :=
  ⟨by decide, (search_questions_spec "bb" 1 exampleStore).2.2 exampleSearchResp (by decide)⟩

end Trivia
